import Mathlib

/-!
Verification of the inbound message ingestion and debounce-buffering pipeline
of a webhook-driven WhatsApp gateway (Express + Supabase + Gupshup).

The definitions below are a shallow embedding of the final (feature-complete)
revision of the webhook route (`router.post('/gupshup')` with buffering,
`bot_enabled` gating and media), the helper `flushBuffer`, the Redis-backed
recent-message cache (`cacheAppendMessage` / `cacheGetLastMessages`), the
media processor (`processAudio`) and the internal escalation endpoint
(`router.post('/notify/escalation')`).

External effects (Supabase queries/inserts, the Python `/invoke` call, the
Gupshup send, Redis) are modelled as explicit parameters / state: a datastore
is a lookup function, a fallible external call is an `Option`/`Except`
parameter, inserted rows are accumulated in lists, and JavaScript timers are
represented by explicit deadlines replayed by a small scheduler.
-/

namespace SkytideGateway

/-- `DEBOUNCE_MS`: default debounce window (`GATEWAY_DEBOUNCE_MS || '10000'`).
Modelled in the same abstract time unit as message arrival times. -/
def DEBOUNCE_MS : Nat := 10000

/-- `MAX_BATCH = 5`: maximum number of buffered messages per chat. -/
def MAX_BATCH : Nat := 5

/-- `DEDUP_TTL = 5 * 60 * 1000`: retention of seen provider message ids (ms). -/
def DEDUP_TTL : Nat := 5 * 60 * 1000

/-- `REDIS_LAST_N`: default bound of the recent-message cache
(`REDIS_CHAT_CACHE_N || '30'`). -/
def REDIS_LAST_N : Nat := 30

/-- Dispatch context snapshot stored in a buffer entry (`ctx` in the code):
captured at each append, consumed by `flushBuffer`. -/
structure DispatchCtx where
  organization_id : String
  chatIdentityId : String
  contactId : Option String
  phone : String
  countryCode : String
  phoneNumber : String
  firstName : Option String
  gupshup_api_key : String
  whatsapp_business_number : String
deriving DecidableEq

/-- One entry of `pendingByChat`: pending texts, the debounce timer (modelled
as its absolute deadline) and the latest dispatch context. -/
structure BufEntry where
  items : List String
  deadline : Option Nat
  ctx : DispatchCtx
deriving DecidableEq

/-- The live buffer map `pendingByChat`, keyed by `org:chatIdentityId`. -/
abbrev BufMap := List (String × BufEntry)

/-- `items.join('\n')` in `flushBuffer`. -/
def joinNl (items : List String) : String := String.intercalate "\n" items

/-- The buffer-append block of the webhook handler (step 8): create the entry
if absent, push the text, replace the context; on reaching `MAX_BATCH` clear
the timer and flush at once (the flushed joined text is returned), otherwise
clear and re-arm the debounce timer to `now + DEBOUNCE_MS`. -/
def appendStep (debounce maxBatch : Nat) (ctx : DispatchCtx) (st : Option BufEntry)
    (now : Nat) (text : String) : Option BufEntry × Option String :=
  let e := st.getD { items := [], deadline := none, ctx := ctx }
  let items := e.items ++ [text]
  if maxBatch ≤ items.length then
    (none, some (joinNl items))
  else
    (some { items := items, deadline := some (now + debounce), ctx := ctx }, none)

/-- Fire the pending debounce timer of `st` if its deadline has been reached
by time `now`: the timer callback runs `flushBuffer`, which removes the entry
and (if it has items) emits one flush record `(deadline, joined text)`. -/
def fireDue (st : Option BufEntry) (now : Nat) : Option BufEntry × List (Nat × String) :=
  match st with
  | none => (none, [])
  | some e =>
    match e.deadline with
    | none => (st, [])
    | some d =>
      if d ≤ now then
        (none, if e.items.isEmpty then [] else [(d, joinNl e.items)])
      else (st, [])

/-- Arrival time of the last message of a trace (`tprev` if the trace is empty). -/
def lastArrival (tprev : Nat) : List (Nat × String) → Nat
  | [] => tprev
  | (t, _) :: rest => lastArrival t rest

/-- `gapsFrom debounce tprev msgs`: the timestamps of `msgs` are ordered and
each arrives strictly less than one debounce window after its predecessor
(the first one relative to `tprev`). -/
def gapsFrom (debounce : Nat) : Nat → List (Nat × String) → Bool
  | _, [] => true
  | tprev, (t, _) :: rest =>
    (decide (tprev ≤ t) && decide (t < tprev + debounce)) && gapsFrom debounce t rest

/-- Replay of one conversation's buffer: process timestamped appends in
arrival order, firing the debounce timer whenever its deadline precedes the
next arrival, and let the final timer fire at its deadline at the end.
Returns the list of flush records `(time, joined text)` in order. -/
def runBuffer (debounce maxBatch : Nat) (ctx : DispatchCtx) :
    Option BufEntry → List (Nat × String) → List (Nat × String)
  | st, [] =>
    match st with
    | none => []
    | some e =>
      match e.deadline with
      | none => []
      | some d => if e.items.isEmpty then [] else [(d, joinNl e.items)]
  | st, (t, x) :: rest =>
    let fd := fireDue st t
    let ap := appendStep debounce maxBatch ctx fd.1 t x
    fd.2 ++ (match ap.2 with | some s => [(t, s)] | none => [])
      ++ runBuffer debounce maxBatch ctx ap.1 rest

/-- A fixed dispatch context used to instantiate witnesses. -/
def witnessCtx : DispatchCtx :=
  { organization_id := "orgA", chatIdentityId := "chat1", contactId := none
    phone := "573001234567", countryCode := "+57", phoneNumber := "3001234567"
    firstName := none, gupshup_api_key := "key", whatsapp_business_number := "5730000000" }

/-- A persisted `chat_messages` row (the fields the gateway writes). -/
structure ChatRow where
  direction : String
  message : String
  processed_text : Option String
  media_type : Option String
  media_url : Option String
  media_mime_type : Option String
  platform_message_id : Option String
  message_status : Option String
  organization_id : String
deriving DecidableEq

/-- Result of `sendTextMessage` (which catches its own errors and always
returns an object): `success` plus the provider `messageId` when present. -/
structure SendResult where
  success : Bool
  messageId : Option String
deriving DecidableEq

/-- The inner try/catch around `sendTextMessage` in `flushBuffer`: a thrown
error is caught and leaves `gupshupResult = { success: false, messageId: null }`. -/
def sendResultOf (send : Except String SendResult) : SendResult :=
  match send with
  | .ok r => r
  | .error _ => { success := false, messageId := none }

/-- Observable effects of one dispatch: whether a provider send was attempted,
the outgoing rows inserted into `chat_messages`, and the `(role, content)`
pairs appended to the recent-message cache. -/
structure FlushEffects where
  sendAttempted : Bool
  outgoingRows : List ChatRow
  cacheAppends : List (String × String)
deriving DecidableEq

/-- No effects (also what an aborted dispatch leaves behind). -/
def emptyFlushEffects : FlushEffects :=
  { sendAttempted := false, outgoingRows := [], cacheAppends := [] }

/-- The outgoing `chat_messages` insert of `flushBuffer`: status `'pending'`
when the send succeeded (a delivery webhook later upgrades it), `'failed'`
otherwise; `platform_message_id` is the provider id when available. -/
def outgoingRowOf (ctx : DispatchCtx) (aiResponse : String) (g : SendResult) : ChatRow :=
  { direction := "outgoing", message := aiResponse, processed_text := none
    media_type := none, media_url := none, media_mime_type := none
    platform_message_id := g.messageId, message_status := some (if g.success then "pending" else "failed")
    organization_id := ctx.organization_id }

/-- The dispatch part of `flushBuffer` after the entry has been removed:
call the Python `/invoke` endpoint (`aiResult = none` models a timeout or
error response, which throws), then send via Gupshup, insert the outgoing
row and append the assistant turn to the cache. `aiResult = some r` carries
the response text after the `|| 'Sin respuesta'` fallback. -/
def dispatchTurn (ctx : DispatchCtx) (aiResult : Option String)
    (send : Except String SendResult) : Except String FlushEffects :=
  match aiResult with
  | none => .error "invoke failed"
  | some aiResponse =>
    let g := sendResultOf send
    .ok { sendAttempted := true
          outgoingRows := [outgoingRowOf ctx aiResponse g]
          cacheAppends := [("assistant", aiResponse)] }

/-- Remove every binding of `key` from the buffer map (`pendingByChat.delete`). -/
def eraseKey (m : BufMap) (key : String) : BufMap :=
  m.filter (fun p => p.1 ≠ key)

/-- Insert/replace the binding of `key` (`pendingByChat.set`). -/
def insertEntry (m : BufMap) (key : String) (e : BufEntry) : BufMap :=
  (key, e) :: eraseKey m key

/-- `flushBuffer(chatKey)`: look up the entry, delete it from the live map,
no-op when absent or empty, otherwise dispatch the joined text; a dispatch
error is caught and only logged, so the deletion is never undone. -/
def flushBuffer (m : BufMap) (key : String) (aiResult : Option String)
    (send : Except String SendResult) : BufMap × FlushEffects :=
  match List.lookup key m with
  | none => (m, emptyFlushEffects)
  | some e =>
    let m' := eraseKey m key
    if e.items.isEmpty then (m', emptyFlushEffects)
    else
      match dispatchTurn e.ctx (aiResult) send with
      | .ok eff => (m', eff)
      | .error _ => (m', emptyFlushEffects)

/-- The buffer-append block of the webhook handler acting on the live map:
the entry-level step plus the map update (`flushBuffer` deletes the entry on
a size-triggered flush; otherwise the entry is stored back). -/
def bufferAppendMap (debounce maxBatch : Nat) (m : BufMap) (key : String)
    (ctx : DispatchCtx) (now : Nat) (text : String) : BufMap × Option String :=
  match appendStep debounce maxBatch ctx (List.lookup key m) now text with
  | (some e, _) => (insertEntry m key e, none)
  | (none, flushed) => (eraseKey m key, flushed)

/-- One `{role, content}` entry of the Redis recent-message list. -/
structure CacheMsg where
  role : String
  content : String
deriving DecidableEq

/-- `cacheAppendMessage`: `rPush` the entry, then if the list length exceeds
the configured max, `lTrim(len - N, -1)` keeps only the last `N` entries
(trim from the front); the `expire` TTL refresh does not change the content. -/
def cacheAppendMessage (maxN : Nat) (l : List CacheMsg) (e : CacheMsg) : List CacheMsg :=
  let pushed := l ++ [e]
  let len := pushed.length
  if maxN < len then pushed.drop (len - maxN) else pushed

/-- `cacheGetLastMessages`: `lRange(max(0, len - n), -1)` — the last `n`
entries, oldest first (empty for an empty/absent list). -/
def cacheGetLastMessages (l : List CacheMsg) (n : Nat) : List CacheMsg :=
  l.drop (l.length - n)

/-- Result shape of the media processor (`processedText`, `mediaUrl`,
`mediaType`, `mimeType`). -/
structure MediaResult where
  processedText : String
  mediaUrl : Option String
  mediaType : String
  mimeType : String
deriving DecidableEq

/-- The catch-all fallback of `processAudio`: any error in download, upload
or transcription lands in one `catch` that returns this fixed object, with
`mediaUrl: null`. -/
def audioFallback : MediaResult :=
  { processedText := "[Audio recibido - Error en transcripción]"
    mediaUrl := none, mediaType := "audio", mimeType := "unknown" }

/-- `processAudio(audioUrl, organizationId, chatIdentityId)`: download the
binary (`download = some (bytes, mimeType)` on success), upload it to storage
(`upload = some publicUrl` on success, `none` when the upload throws), then
transcribe with Gemini (`transcribe = some text`, `none` when the call
throws). All three steps sit in a single try/catch whose handler returns
`audioFallback`. -/
def processAudio (download : Option (String × String)) (upload : Option String)
    (transcribe : Option String) : MediaResult :=
  match download with
  | none => audioFallback
  | some (_, mime) =>
    match upload with
    | none => audioFallback
    | some publicUrl =>
      match transcribe with
      | none => audioFallback
      | some transcription =>
        { processedText := "[Audio transcrito]: " ++ transcription
          mediaUrl := some publicUrl, mediaType := "audio", mimeType := mime }

/-- Escalation-request body fields; each is `none` when absent (JavaScript
`undefined`) and may be the empty string, both of which fail the presence
check. -/
structure EscalationParams where
  organization_id : Option String
  chat_identity_id : Option String
  phone_number : Option String
  country_code : Option String
  reason : Option String
deriving DecidableEq

/-- JavaScript truthiness of an optional string parameter. -/
def present (o : Option String) : Bool :=
  match o with
  | some s => s ≠ ""
  | none => false

/-- One row of `internal_notifications_config`. -/
structure NotifConfig where
  is_enabled : Bool
  recipient_phone : String
  country_code : String
deriving DecidableEq

/-- Remove the first occurrence of a character from a list. -/
def removeFirst (c : Char) : List Char → List Char
  | [] => []
  | x :: xs => if x = c then xs else x :: removeFirst c xs

/-- `(notifCfg.country_code || '').replace('+', '')`: the JavaScript string
form of `replace` removes only the first occurrence. -/
def stripPlus (s : String) : String := String.mk (removeFirst (Char.ofNat 43) s.toList)

/-- `String(notifCfg.recipient_phone || '').replace(/\D/g, '')`. -/
def digitsOnly (s : String) : String := String.mk (s.toList.filter Char.isDigit)

/-- The `/internal/notify/escalation` handler. Inputs model the external
world: `envOk` is the presence of the notification env vars, `cfgQuery` the
`internal_notifications_config` lookup, `updateOk` whether the
`bot_enabled: false` update succeeds (its failure is only logged), `sendOk`
whether the Gupshup template send succeeds, `botEnabledBefore` the stored
`bot_enabled` of the target conversation. Returns the HTTP status and the
conversation's `bot_enabled` after the request. The `bot_enabled` update is
issued before the Gupshup send and is never rolled back. -/
def escalationNotify (p : EscalationParams) (envOk : Bool)
    (cfgQuery : Except String (List NotifConfig))
    (updateOk : Bool) (sendOk : Bool) (botEnabledBefore : Bool) : Nat × Bool :=
  if ¬ (present p.organization_id ∧ present p.chat_identity_id ∧ present p.phone_number
        ∧ present p.country_code ∧ present p.reason) then
    (400, botEnabledBefore)
  else if ¬ envOk then (500, botEnabledBefore)
  else
    match cfgQuery with
    | .error _ => (400, botEnabledBefore)
    | .ok cfgs =>
      match cfgs with
      | [] => (400, botEnabledBefore)
      | cfg :: _ =>
        if ¬ cfg.is_enabled then (400, botEnabledBefore)
        else
          let advisorCountry := stripPlus cfg.country_code
          let advisorPhone := digitsOnly cfg.recipient_phone
          if advisorCountry = "" ∨ advisorPhone = "" then (400, botEnabledBefore)
          else
            let botAfter := if updateOk then false else botEnabledBefore
            if sendOk then (200, botAfter) else (502, botAfter)

/-- An active `platform_connections` row (the fields the handler selects). -/
structure Connection where
  organization_id : String
  gupshup_api_key : String
  whatsapp_business_number : String
deriving DecidableEq

/-- A `chat_identities` row (the fields the handler selects). -/
structure Identity where
  id : String
  contact_id : Option String
  bot_enabled : Bool
deriving DecidableEq

/-- The datastore as read during one webhook event: `connection` is the
`platform_connections` lookup by `gupshup_app_name` (already restricted to
`is_active = true`), `identity` the `chat_identities` lookup by
(organization, phone), `contactFirstName` the `contacts.first_name` lookup. -/
structure Db where
  connection : String → Option Connection
  identity : String → String → Option Identity
  contactFirstName : String → Option String

/-- The fields of a Gupshup inbound webhook delivery the handler reads. -/
structure InboundEvent where
  eventType : String
  messageId : Option String
  app : String
  source : String
  phone : String
  countryCode : String
  dialCode : String
  msgType : String
  text : Option String
deriving DecidableEq

/-- Effects of the asynchronous part of one webhook delivery: inserted
`chat_messages` rows, `(role, content)` recent-cache appends, an audit log of
buffer appends (one text per `entry.items.push`), and the resulting live
buffer map. -/
structure AsyncOutcome where
  rows : List ChatRow
  cacheAppends : List (String × String)
  appendLog : List String
  buffer : BufMap
deriving DecidableEq

/-- An outcome with no effects (the early returns of the handler). -/
def noEffects (buf : BufMap) : AsyncOutcome :=
  { rows := [], cacheAppends := [], appendLog := [], buffer := buf }

/-- The asynchronous (post-response) part of the webhook handler, steps 3–8:
resolve the organization, drop echoes of the business number, freshly read
the chat identity — `bot_enabled` included; a missing identity is created
(id `newIdentityId`) with the bot enabled — normalize media
(`media` models the `processMedia` result, `none` for a null result or a
caught error), insert the incoming row, and, only when the bot is enabled,
append the user turn to the recent cache and to the per-chat buffer,
flushing at once when the batch cap is reached (`aiResult` and `send` feed
that flush). -/
def processEventAsync (debounce maxBatch : Nat) (db : Db) (ev : InboundEvent)
    (newIdentityId : String) (media : Option MediaResult) (now : Nat)
    (buf : BufMap) (aiResult : Option String) (send : Except String SendResult) :
    AsyncOutcome :=
  match db.connection ev.app with
  | none => noEffects buf
  | some conn =>
    if ev.source = conn.whatsapp_business_number then noEffects buf
    else
      let resolved :=
        match db.identity conn.organization_id ev.phone with
        | some ident => (ident.id, ident.contact_id, ident.bot_enabled)
        | none => (newIdentityId, none, true)
      let chatIdentityId := resolved.1
      let contactId := resolved.2.1
      let botEnabled := resolved.2.2
      let firstName :=
        match contactId with
        | some cid => db.contactFirstName cid
        | none => none
      let messageContent := ev.text.getD "[Mensaje multimedia]"
      let pm :=
        if ev.msgType ≠ "text" then
          match media with
          | some mr =>
            if mr.processedText ≠ "" then (mr.processedText, some mr)
            else (messageContent, none)
          | none => (messageContent, none)
        else (messageContent, (none : Option MediaResult))
      let processedText := pm.1
      let mediaMeta := pm.2
      let dbMediaType :=
        match mediaMeta with
        | some mr =>
          if mr.mediaType = "contact" ∨ mr.mediaType = "location" then none
          else some mr.mediaType
        | none => none
      let row : ChatRow :=
        { direction := "incoming"
          message := if ev.msgType = "text" then messageContent else ""
          processed_text := some processedText
          media_type := dbMediaType
          media_url := mediaMeta.bind (fun mr => mr.mediaUrl)
          media_mime_type := mediaMeta.map (fun mr => mr.mimeType)
          platform_message_id := ev.messageId
          message_status := none
          organization_id := conn.organization_id }
      if botEnabled = false then
        { rows := [row], cacheAppends := [], appendLog := [], buffer := buf }
      else
        let chatKey := conn.organization_id ++ ":" ++ chatIdentityId
        let ctx : DispatchCtx :=
          { organization_id := conn.organization_id, chatIdentityId := chatIdentityId
            contactId := contactId, phone := ev.phone
            countryCode := "+" ++ ev.countryCode, phoneNumber := ev.dialCode
            firstName := firstName, gupshup_api_key := conn.gupshup_api_key
            whatsapp_business_number := conn.whatsapp_business_number }
        let bufExtra :=
          match appendStep debounce maxBatch ctx (List.lookup chatKey buf) now processedText with
          | (some e, _) => (insertEntry buf chatKey e, emptyFlushEffects)
          | (none, _) =>
            (eraseKey buf chatKey,
              match dispatchTurn ctx aiResult send with
              | .ok eff => eff
              | .error _ => emptyFlushEffects)
        { rows := [row] ++ bufExtra.2.outgoingRows
          cacheAppends := [("user", processedText)] ++ bufExtra.2.cacheAppends
          appendLog := [processedText]
          buffer := bufExtra.1 }

/-- Process-wide gateway state threaded across webhook deliveries: the dedup
map `processedMessages` (id, firstSeen), the persisted `chat_messages` rows,
the live buffer map and the audit log of buffer appends. -/
structure GatewayState where
  processed : List (String × Nat)
  rows : List ChatRow
  buffer : BufMap
  appendLog : List String
deriving DecidableEq

/-- `processedMessages.has(messageId)`. -/
def seenRecently (ps : List (String × Nat)) (id : String) : Bool :=
  (List.lookup id ps).isSome

/-- The state at process start. -/
def emptyGatewayState : GatewayState :=
  { processed := [], rows := [], buffer := [], appendLog := [] }

/-- One webhook delivery (`router.post('/gupshup')`): a non-message event is
acknowledged and ignored; a message id already in the dedup map is
acknowledged as a duplicate no-op; otherwise the id (when present) is marked
seen and the asynchronous pipeline runs. -/
def handleEvent (debounce maxBatch : Nat) (db : Db) (st : GatewayState)
    (ev : InboundEvent) (now : Nat) (newIdentityId : String)
    (media : Option MediaResult) (aiResult : Option String)
    (send : Except String SendResult) : GatewayState :=
  if ev.eventType ≠ "message" then st
  else
    match ev.messageId with
    | some mid =>
      if seenRecently st.processed mid then st
      else
        let out := processEventAsync debounce maxBatch db ev newIdentityId media now
          st.buffer aiResult send
        { processed := (mid, now) :: st.processed
          rows := st.rows ++ out.rows
          buffer := out.buffer
          appendLog := st.appendLog ++ out.appendLog }
    | none =>
      let out := processEventAsync debounce maxBatch db ev newIdentityId media now
        st.buffer aiResult send
      { processed := st.processed
        rows := st.rows ++ out.rows
        buffer := out.buffer
        appendLog := st.appendLog ++ out.appendLog }

/-- The periodic dedup sweep (`setInterval`, every 60 s): delete ids whose
first-seen timestamp is more than `DEDUP_TTL` in the past. -/
def sweepDedup (ttl now : Nat) (st : GatewayState) : GatewayState :=
  { st with processed := st.processed.filter (fun p => ¬ (ttl < now - p.2)) }

/-- A concrete datastore with the bot enabled for the witness conversation. -/
def witnessDbOn : Db :=
  { connection := fun a =>
      if a = "SkytideApp" then
        some { organization_id := "orgA", gupshup_api_key := "key"
               whatsapp_business_number := "5730000000" }
      else none
    identity := fun o p =>
      if o = "orgA" ∧ p = "573001234567" then
        some { id := "chat1", contact_id := none, bot_enabled := true }
      else none
    contactFirstName := fun _ => none }

/-- The same datastore after an escalation flipped `bot_enabled` off. -/
def witnessDbOff : Db :=
  { connection := fun a =>
      if a = "SkytideApp" then
        some { organization_id := "orgA", gupshup_api_key := "key"
               whatsapp_business_number := "5730000000" }
      else none
    identity := fun o p =>
      if o = "orgA" ∧ p = "573001234567" then
        some { id := "chat1", contact_id := none, bot_enabled := false }
      else none
    contactFirstName := fun _ => none }

/-- A concrete inbound text message used by the pipeline witnesses. -/
def witnessEvent : InboundEvent :=
  { eventType := "message", messageId := some "msg1", app := "SkytideApp"
    source := "573001234567", phone := "573001234567", countryCode := "57"
    dialCode := "3001234567", msgType := "text", text := some "Hola" }

theorem gapsFrom_cons {debounce tprev t : Nat} {x : String} {rest : List (Nat × String)}
    (h : gapsFrom debounce tprev ((t, x) :: rest) = true) :
    tprev ≤ t ∧ t < tprev + debounce ∧ gapsFrom debounce t rest = true := by
  simp only [gapsFrom, Bool.and_eq_true, decide_eq_true_eq] at h
  exact ⟨h.1.1, h.1.2, h.2⟩

theorem runBuffer_go (debounce maxBatch : Nat) (ctx : DispatchCtx)
    (msgs : List (Nat × String)) :
    ∀ (acc : List String) (tprev : Nat), acc ≠ [] →
      gapsFrom debounce tprev msgs = true →
      acc.length + msgs.length < maxBatch →
      runBuffer debounce maxBatch ctx
          (some { items := acc, deadline := some (tprev + debounce), ctx := ctx }) msgs
        = [(lastArrival tprev msgs + debounce, joinNl (acc ++ msgs.map Prod.snd))] := by
  induction msgs with
  | nil =>
      intro acc tprev hne _ _
      simp [runBuffer, lastArrival, hne]
  | cons p rest ih =>
      obtain ⟨t, x⟩ := p
      intro acc tprev hne hgaps hsize
      obtain ⟨h1, h2, h3⟩ := gapsFrom_cons hgaps
      have hfire : ¬ (tprev + debounce ≤ t) := by omega
      have hcap : ¬ (maxBatch ≤ (acc ++ [x]).length) := by
        simp only [List.length_append, List.length_singleton]
        simp only [List.length_cons] at hsize
        omega
      rw [runBuffer]
      simp only [fireDue, appendStep, Option.getD_some, if_neg hfire, if_neg hcap]
      rw [ih (acc ++ [x]) t (by simp) h3
        (by simp at hsize ⊢; omega)]
      simp [lastArrival]

theorem runBuffer_go_cap (debounce maxBatch : Nat) (ctx : DispatchCtx)
    (msgs : List (Nat × String)) :
    ∀ (acc : List String) (tprev : Nat), msgs ≠ [] →
      gapsFrom debounce tprev msgs = true →
      acc.length + msgs.length = maxBatch →
      runBuffer debounce maxBatch ctx
          (some { items := acc, deadline := some (tprev + debounce), ctx := ctx }) msgs
        = [(lastArrival tprev msgs, joinNl (acc ++ msgs.map Prod.snd))] := by
  induction msgs with
  | nil => intro _ _ h; exact absurd rfl h
  | cons p rest ih =>
      obtain ⟨t, x⟩ := p
      intro acc tprev _ hgaps hsize
      obtain ⟨h1, h2, h3⟩ := gapsFrom_cons hgaps
      have hfire : ¬ (tprev + debounce ≤ t) := by omega
      cases rest with
      | nil =>
          have hcap : maxBatch ≤ acc.length + 1 := by
            simp only [List.length_cons, List.length_nil] at hsize
            omega
          rw [runBuffer]
          simp [fireDue, appendStep, hfire, hcap, runBuffer, lastArrival]
      | cons q rest' =>
          have hcap : ¬ (maxBatch ≤ (acc ++ [x]).length) := by
            simp only [List.length_append, List.length_singleton]
            simp only [List.length_cons] at hsize
            omega
          rw [runBuffer]
          simp only [fireDue, appendStep, Option.getD_some, if_neg hfire, if_neg hcap]
          rw [ih (acc ++ [x]) t (by simp) h3
            (by simp at hsize ⊢; omega)]
          simp [lastArrival]

/-- Claim C1: for a conversation, a burst of messages whose inter-arrival gaps
are all strictly shorter than the debounce window and whose total count stays
below the batch cap produces exactly one flush record, emitted one full
debounce window after the last append, whose text is the pending texts joined
with a newline in arrival order. -/
theorem debounce_coalesces_to_single_flush (debounce maxBatch : Nat) (ctx : DispatchCtx)
    (t0 : Nat) (x0 : String) (msgs : List (Nat × String))
    (hgaps : gapsFrom debounce t0 msgs = true)
    (hsize : msgs.length + 1 < maxBatch) :
    runBuffer debounce maxBatch ctx none ((t0, x0) :: msgs)
      = [(lastArrival t0 msgs + debounce, joinNl (x0 :: msgs.map Prod.snd))] := by
  have hcap : ¬ (maxBatch ≤ 1) := by omega
  rw [runBuffer]
  simp [fireDue, appendStep, hcap]
  rw [runBuffer_go debounce maxBatch ctx msgs [x0] t0 (by simp) hgaps
    (by simp; omega)]
  simp

/-- Claim C2: when an append makes the pending list reach the maximum batch
size, the entry is flushed immediately at that append (flush time is the
arrival time of the capping message, not a debounce deadline) and no timer
remains: the trace produces exactly that one flush. -/
theorem size_cap_flushes_immediately (debounce maxBatch : Nat) (ctx : DispatchCtx)
    (t0 : Nat) (x0 : String) (msgs : List (Nat × String))
    (hgaps : gapsFrom debounce t0 msgs = true)
    (hsize : msgs.length + 1 = maxBatch) :
    runBuffer debounce maxBatch ctx none ((t0, x0) :: msgs)
      = [(lastArrival t0 msgs, joinNl (x0 :: msgs.map Prod.snd))] := by
  cases msgs with
  | nil =>
      have hcap : maxBatch ≤ 1 := by
        simp only [List.length_nil] at hsize; omega
      rw [runBuffer]
      simp [fireDue, appendStep, hcap, runBuffer, lastArrival]
  | cons q rest =>
      have hcap : ¬ (maxBatch ≤ 1) := by
        simp only [List.length_cons] at hsize; omega
      rw [runBuffer]
      simp [fireDue, appendStep, hcap]
      rw [runBuffer_go_cap debounce maxBatch ctx (q :: rest) [x0] t0 (by simp) hgaps
        (by simp at hsize ⊢; omega)]
      simp

/-- Witness for C1: messages A at t=0, B at t=3, C at t=6 with debounce 10 and
cap 5 flush exactly once, at t=16, with combined text A, B, C joined by
newlines. -/
theorem debounce_coalesces_witness :
    gapsFrom 10 0 [(3, "B"), (6, "C")] = true ∧
    runBuffer 10 5 witnessCtx none [(0, "A"), (3, "B"), (6, "C")] = [(16, "A\nB\nC")] :=
  ⟨by decide,
   (debounce_coalesces_to_single_flush 10 5 witnessCtx 0 "A" [(3, "B"), (6, "C")]
      (by decide) (by decide)).trans (by decide)⟩

/-- Witness for C2: five messages one time unit apart with debounce 10 and cap
5 flush exactly once, immediately at the arrival of the fifth message. -/
theorem size_cap_witness :
    gapsFrom 10 0 [(1, "m2"), (2, "m3"), (3, "m4"), (4, "m5")] = true ∧
    runBuffer 10 5 witnessCtx none [(0, "m1"), (1, "m2"), (2, "m3"), (3, "m4"), (4, "m5")]
      = [(4, "m1\nm2\nm3\nm4\nm5")] :=
  ⟨by decide,
   (size_cap_flushes_immediately 10 5 witnessCtx 0 "m1" [(1, "m2"), (2, "m3"), (3, "m4"), (4, "m5")]
      (by decide) (by decide)).trans (by decide)⟩

theorem lookup_eraseKey (m : BufMap) (key : String) :
    List.lookup key (eraseKey m key) = none := by
  induction m with
  | nil => rfl
  | cons p rest ih =>
      obtain ⟨k, v⟩ := p
      by_cases h : k = key
      · simpa [eraseKey, List.filter_cons, h] using ih
      · have hne : (key == k) = false := beq_eq_false_iff_ne.mpr (Ne.symm h)
        simpa [eraseKey, List.filter_cons, h, List.lookup, hne] using ih

/-- Claim C4: `flushBuffer` removes the entry before the dispatch attempt, so
whatever the AI call or the send do (succeed, fail, throw), the key is absent
from the live map afterwards, and a message arriving during the in-flight
flush starts a brand-new single-item entry rather than joining the old one. -/
theorem flush_removes_entry_and_new_messages_start_fresh
    (m : BufMap) (key : String) (aiResult : Option String)
    (send : Except String SendResult) (debounce maxBatch : Nat)
    (ctx : DispatchCtx) (now : Nat) (text : String)
    (hmb : 1 < maxBatch) :
    List.lookup key (flushBuffer m key aiResult send).1 = none ∧
    List.lookup key
        (bufferAppendMap debounce maxBatch (flushBuffer m key aiResult send).1 key ctx now text).1
      = some { items := [text], deadline := some (now + debounce), ctx := ctx } := by
  have habs : List.lookup key (flushBuffer m key aiResult send).1 = none := by
    unfold flushBuffer
    cases h : List.lookup key m with
    | none => simp only [h]
    | some e =>
        simp only [h]
        by_cases he : e.items.isEmpty
        · simp [he, lookup_eraseKey]
        · cases hd : dispatchTurn e.ctx aiResult send with
          | ok eff => simp [he, hd, lookup_eraseKey]
          | error msg => simp [he, hd, lookup_eraseKey]
  refine ⟨habs, ?_⟩
  unfold bufferAppendMap
  rw [habs]
  have hcap : ¬ (maxBatch ≤ 1) := by omega
  simp [appendStep, hcap, insertEntry, List.lookup]

/-- Witness for C4: flushing a one-entry map (send throwing) leaves the key
absent, and an append during the in-flight flush creates a fresh entry. -/
theorem flush_removes_entry_witness :
    List.lookup "orgA:chat1"
        (flushBuffer [("orgA:chat1", { items := ["hola"], deadline := none, ctx := witnessCtx })]
          "orgA:chat1" (some "resp") (.error "net")).1 = none ∧
    List.lookup "orgA:chat1"
        (bufferAppendMap 10000 5
          (flushBuffer [("orgA:chat1", { items := ["hola"], deadline := none, ctx := witnessCtx })]
            "orgA:chat1" (some "resp") (.error "net")).1
          "orgA:chat1" witnessCtx 42 "nuevo").1
      = some { items := ["nuevo"], deadline := some (10042), ctx := witnessCtx } :=
  flush_removes_entry_and_new_messages_start_fresh
    [("orgA:chat1", { items := ["hola"], deadline := none, ctx := witnessCtx })]
    "orgA:chat1" (some "resp") (.error "net") 10000 5 witnessCtx 42 "nuevo" (by decide)

/-- Counterexample for C6 as stated: in a flush whose AI call succeeds and
whose provider send succeeds, the outgoing row is recorded with status
`'pending'` (to be upgraded later by the delivery-status webhook), not
`'sent'` as the claim asserts. -/
theorem outgoing_status_is_pending_not_sent :
    ((flushBuffer [("orgA:chat1", { items := ["hola"], deadline := none, ctx := witnessCtx })]
        "orgA:chat1" (some "resp") (.ok { success := true, messageId := some "gid-1" })).2.outgoingRows.map
      (fun r => r.message_status)) = [some "pending"] ∧
    some "pending" ≠ some ("sent" : String) := by decide

/-- Claim C6 (amended): for every flush whose AI call succeeds, exactly one
outgoing row is inserted regardless of the send outcome (success, failure
response or thrown error); its status is `'pending'` on a successful send and
`'failed'` otherwise, its `platform_message_id` is the provider message id
when available and its text is the AI response. -/
theorem flush_persists_one_outgoing_row
    (m : BufMap) (key : String) (e : BufEntry) (resp : String)
    (send : Except String SendResult)
    (he : List.lookup key m = some e) (hne : e.items.isEmpty = false) :
    ((flushBuffer m key (some resp) send).2.outgoingRows.map (fun r => r.message_status))
        = [some (if (sendResultOf send).success then "pending" else "failed")] ∧
    ((flushBuffer m key (some resp) send).2.outgoingRows.map (fun r => r.platform_message_id))
        = [(sendResultOf send).messageId] ∧
    ((flushBuffer m key (some resp) send).2.outgoingRows.map (fun r => r.message))
        = [resp] := by
  unfold flushBuffer
  simp [he, hne, dispatchTurn, outgoingRowOf]

/-- Witness for C6 (amended): a concrete flush whose send throws still inserts
exactly one outgoing row, with status `'failed'` and no provider id. -/
theorem flush_persists_one_outgoing_row_witness :
    ((flushBuffer [("orgA:chat1", { items := ["hola"], deadline := none, ctx := witnessCtx })]
        "orgA:chat1" (some "resp") (.error "net")).2.outgoingRows.map (fun r => r.message_status))
        = [some (if (sendResultOf (.error "net")).success then "pending" else "failed")] ∧
    ((flushBuffer [("orgA:chat1", { items := ["hola"], deadline := none, ctx := witnessCtx })]
        "orgA:chat1" (some "resp") (.error "net")).2.outgoingRows.map (fun r => r.platform_message_id))
        = [(sendResultOf (.error "net")).messageId] ∧
    ((flushBuffer [("orgA:chat1", { items := ["hola"], deadline := none, ctx := witnessCtx })]
        "orgA:chat1" (some "resp") (.error "net")).2.outgoingRows.map (fun r => r.message))
        = [("resp" : String)] :=
  flush_persists_one_outgoing_row
    [("orgA:chat1", { items := ["hola"], deadline := none, ctx := witnessCtx })]
    "orgA:chat1" { items := ["hola"], deadline := none, ctx := witnessCtx } "resp"
    (.error "net") (by decide) (by decide)

/-- Claim C7: if the AI call of a flush fails, the flush attempts no provider
send, inserts no outgoing row and appends nothing to the recent-message
cache; the error is caught (the function returns normally) and the entry
stays removed from the live map. -/
theorem ai_failure_skips_send_row_and_cache
    (m : BufMap) (key : String) (e : BufEntry)
    (send : Except String SendResult)
    (he : List.lookup key m = some e) :
    flushBuffer m key none send = (eraseKey m key, emptyFlushEffects) := by
  unfold flushBuffer
  by_cases hi : e.items.isEmpty <;> simp [he, hi, dispatchTurn]

/-- Witness for C7: a concrete flush whose AI call fails produces no send, no
outgoing row and no cache append, and leaves the map without the key. -/
theorem ai_failure_witness :
    flushBuffer [("orgA:chat1", { items := ["hola"], deadline := none, ctx := witnessCtx })]
        "orgA:chat1" none (.ok { success := true, messageId := some "gid-1" })
      = (eraseKey [("orgA:chat1", { items := ["hola"], deadline := none, ctx := witnessCtx })]
          "orgA:chat1", emptyFlushEffects) :=
  ai_failure_skips_send_row_and_cache
    [("orgA:chat1", { items := ["hola"], deadline := none, ctx := witnessCtx })]
    "orgA:chat1" { items := ["hola"], deadline := none, ctx := witnessCtx }
    (.ok { success := true, messageId := some "gid-1" }) (by decide)

theorem cacheAppendMessage_eq_drop (maxN : Nat) (l : List CacheMsg) (e : CacheMsg) :
    cacheAppendMessage maxN l e = (l ++ [e]).drop (l.length + 1 - maxN) := by
  unfold cacheAppendMessage
  by_cases h : maxN < (l ++ [e]).length
  · simp only [h, if_true]
    congr 1
    simp
  · have hlen : (l ++ [e]).length = l.length + 1 := by simp
    have h0 : l.length + 1 - maxN = 0 := by rw [hlen] at h; omega
    simp only [h, if_false, h0, List.drop_zero]

theorem foldl_cacheAppend (maxN : Nat) (es : List CacheMsg) :
    ∀ l : List CacheMsg, l.length ≤ maxN →
      es.foldl (cacheAppendMessage maxN) l = (l ++ es).drop (l.length + es.length - maxN) := by
  induction es with
  | nil =>
      intro l h
      simp [Nat.sub_eq_zero_of_le h]
  | cons e tl ih =>
      intro l h
      rw [List.foldl_cons, cacheAppendMessage_eq_drop]
      have hk : l.length + 1 - maxN ≤ (l ++ [e]).length := by
        simp only [List.length_append, List.length_singleton]
        omega
      have hlen : ((l ++ [e]).drop (l.length + 1 - maxN)).length ≤ maxN := by
        simp only [List.length_drop, List.length_append, List.length_singleton]
        omega
      rw [ih _ hlen]
      rw [← List.drop_append_of_le_length hk, List.drop_drop]
      congr 1
      · simp only [List.length_drop, List.length_append, List.length_singleton,
          List.length_cons, List.length_nil]
        omega
      · simp

/-- Claim C9: appending `N + 5` entries to an empty recent-message cache
bounded at `N` leaves exactly the `N` most recent entries; `getLast N`
returns them all, oldest first (that is, the input minus its 5 oldest
entries); and an append to a within-bound list never grows it past `N`. -/
theorem recent_cache_bound_and_getLast (N : Nat) (es l : List CacheMsg) (e : CacheMsg)
    (hlen : es.length = N + 5) (hle : l.length ≤ N) :
    cacheGetLastMessages (es.foldl (cacheAppendMessage N) []) N = es.drop 5 ∧
    (cacheAppendMessage N l e).length ≤ N := by
  constructor
  · rw [foldl_cacheAppend N es [] (by simp)]
    have h2 : ([] ++ es : List CacheMsg).drop (List.length ([] : List CacheMsg) + es.length - N)
        = es.drop 5 := by
      simp only [List.nil_append, List.length_nil, Nat.zero_add]
      congr 1
      omega
    rw [h2]
    unfold cacheGetLastMessages
    have h3 : (es.drop 5).length - N = 0 := by
      simp only [List.length_drop]
      omega
    rw [h3, List.drop_zero]
  · rw [cacheAppendMessage_eq_drop]
    simp only [List.length_drop, List.length_append, List.length_singleton]
    omega

/-- Witness for C9: with max 3, appending 8 entries leaves the last 3; the
cache returns them oldest-first and a bounded append stays bounded. -/
theorem recent_cache_witness :
    cacheGetLastMessages
        (([⟨"user", "1"⟩, ⟨"assistant", "2"⟩, ⟨"user", "3"⟩, ⟨"assistant", "4"⟩,
           ⟨"user", "5"⟩, ⟨"assistant", "6"⟩, ⟨"user", "7"⟩, ⟨"assistant", "8"⟩] :
            List CacheMsg).foldl (cacheAppendMessage 3) []) 3
      = ([⟨"user", "1"⟩, ⟨"assistant", "2"⟩, ⟨"user", "3"⟩, ⟨"assistant", "4"⟩,
          ⟨"user", "5"⟩, ⟨"assistant", "6"⟩, ⟨"user", "7"⟩, ⟨"assistant", "8"⟩] :
            List CacheMsg).drop 5 ∧
    (cacheAppendMessage 3 [⟨"user", "a"⟩, ⟨"user", "b"⟩, ⟨"user", "c"⟩] ⟨"user", "d"⟩).length ≤ 3 :=
  recent_cache_bound_and_getLast 3
    [⟨"user", "1"⟩, ⟨"assistant", "2"⟩, ⟨"user", "3"⟩, ⟨"assistant", "4"⟩,
     ⟨"user", "5"⟩, ⟨"assistant", "6"⟩, ⟨"user", "7"⟩, ⟨"assistant", "8"⟩]
    [⟨"user", "a"⟩, ⟨"user", "b"⟩, ⟨"user", "c"⟩] ⟨"user", "d"⟩ (by decide) (by decide)

/-- Counterexample for C8 as stated: with a successful download and upload
(stored URL `"https://storage/chat-media/a.ogg"`) but a failed transcription,
`processAudio` returns `mediaUrl = null`, not the stored URL the claim
asserts. -/
theorem audio_fallback_loses_media_url :
    (processAudio (some ("bytes", "audio/ogg")) (some "https://storage/chat-media/a.ogg")
        none).mediaUrl = none ∧
    (none : Option String) ≠ some "https://storage/chat-media/a.ogg" := by decide

/-- Claim C8 (amended): when download and upload succeed but transcription
fails, `processAudio` returns the fixed non-empty placeholder
`"[Audio recibido - Error en transcripción]"` as `processedText`, and
`mediaUrl = null`: the stored artifact's URL is dropped despite the
successful upload (the catch-all handler discards it). -/
theorem audio_transcription_failure_returns_placeholder
    (bytes mime url : String) :
    processAudio (some (bytes, mime)) (some url) none = audioFallback ∧
    audioFallback.processedText = "[Audio recibido - Error en transcripción]" ∧
    audioFallback.processedText ≠ "" ∧
    audioFallback.mediaUrl = none := by
  refine ⟨rfl, rfl, ?_, rfl⟩
  decide

/-- Claim C10: on a well-formed escalation request with notifications
configured and enabled, the handler disables the bot before attempting the
provider send, so a failed send yields a 502 response with `bot_enabled`
already `false` (not rolled back); and a failure of the `bot_enabled` update
alone still yields a 200 response. -/
theorem escalation_disables_bot_before_send
    (p : EscalationParams) (cfg : NotifConfig) (rest : List NotifConfig) (b : Bool)
    (hp : (present p.organization_id ∧ present p.chat_identity_id ∧ present p.phone_number
        ∧ present p.country_code ∧ present p.reason))
    (hen : cfg.is_enabled = true)
    (hcc : stripPlus cfg.country_code ≠ "")
    (hph : digitsOnly cfg.recipient_phone ≠ "") :
    escalationNotify p true (.ok (cfg :: rest)) true false b = (502, false) ∧
    escalationNotify p true (.ok (cfg :: rest)) false true b = (200, b) := by
  constructor <;>
    simp [escalationNotify, hp.1, hp.2.1, hp.2.2.1, hp.2.2.2.1, hp.2.2.2.2, hen, hcc, hph]

/-- Witness for C10: a concrete well-formed request; the failed send returns
502 with the bot already disabled, and a failed update alone returns 200. -/
theorem escalation_disables_bot_witness :
    escalationNotify
        { organization_id := some "org1", chat_identity_id := some "chat1"
          phone_number := some "3001234567", country_code := some "+57"
          reason := some "cliente molesto" }
        true (.ok [{ is_enabled := true, recipient_phone := "300 111 2233", country_code := "+57" }])
        true false true = (502, false) ∧
    escalationNotify
        { organization_id := some "org1", chat_identity_id := some "chat1"
          phone_number := some "3001234567", country_code := some "+57"
          reason := some "cliente molesto" }
        true (.ok [{ is_enabled := true, recipient_phone := "300 111 2233", country_code := "+57" }])
        false true true = (200, true) :=
  escalation_disables_bot_before_send
    { organization_id := some "org1", chat_identity_id := some "chat1"
      phone_number := some "3001234567", country_code := some "+57"
      reason := some "cliente molesto" }
    { is_enabled := true, recipient_phone := "300 111 2233", country_code := "+57" }
    [] true (by decide) (by decide) (by decide) (by decide)

/-- Claim C5: when the freshly-read chat identity has `bot_enabled = false`,
the incoming row is still persisted but nothing is appended to the recent
cache or to the buffer, so the Turn Dispatcher is never invoked for the
event; and since `bot_enabled` is read from the datastore during the event
(the identity cache of earlier revisions was removed), the same event
processed against a datastore whose flag is `true` does append to the
buffer. -/
theorem bot_disabled_persists_but_never_dispatches
    (debounce maxBatch : Nat) (db db' : Db) (ev : InboundEvent)
    (conn : Connection) (ident ident' : Identity)
    (newId : String) (media : Option MediaResult) (now : Nat) (buf : BufMap)
    (aiResult : Option String) (send : Except String SendResult)
    (hc : db.connection ev.app = some conn)
    (hecho : ev.source ≠ conn.whatsapp_business_number)
    (hi : db.identity conn.organization_id ev.phone = some ident)
    (hb : ident.bot_enabled = false)
    (hc' : db'.connection ev.app = some conn)
    (hi' : db'.identity conn.organization_id ev.phone = some ident')
    (hb' : ident'.bot_enabled = true) :
    (processEventAsync debounce maxBatch db ev newId media now buf aiResult send).rows.map
        (fun r => (r.direction, r.platform_message_id)) = [("incoming", ev.messageId)] ∧
    (processEventAsync debounce maxBatch db ev newId media now buf aiResult send).cacheAppends = [] ∧
    (processEventAsync debounce maxBatch db ev newId media now buf aiResult send).appendLog = [] ∧
    (processEventAsync debounce maxBatch db ev newId media now buf aiResult send).buffer = buf ∧
    (processEventAsync debounce maxBatch db' ev newId media now buf aiResult send).appendLog.length
      = 1 := by
  refine ⟨?_, ?_, ?_, ?_, ?_⟩ <;>
    simp [processEventAsync, hc, hecho, hi, hb, hc', hi', hb']

/-- Witness for C5: the concrete event against the disabled datastore
persists one incoming row and triggers no cache or buffer activity, while
the same event against the enabled datastore appends to the buffer. -/
theorem bot_disabled_witness :
    (processEventAsync 10000 5 witnessDbOff witnessEvent "new1" none 0 [] (some "r")
        (.ok { success := true, messageId := none })).rows.map
        (fun r => (r.direction, r.platform_message_id)) = [("incoming", witnessEvent.messageId)] ∧
    (processEventAsync 10000 5 witnessDbOff witnessEvent "new1" none 0 [] (some "r")
        (.ok { success := true, messageId := none })).cacheAppends = [] ∧
    (processEventAsync 10000 5 witnessDbOff witnessEvent "new1" none 0 [] (some "r")
        (.ok { success := true, messageId := none })).appendLog = [] ∧
    (processEventAsync 10000 5 witnessDbOff witnessEvent "new1" none 0 [] (some "r")
        (.ok { success := true, messageId := none })).buffer = [] ∧
    (processEventAsync 10000 5 witnessDbOn witnessEvent "new1" none 0 [] (some "r")
        (.ok { success := true, messageId := none })).appendLog.length = 1 :=
  bot_disabled_persists_but_never_dispatches 10000 5 witnessDbOff witnessDbOn witnessEvent
    { organization_id := "orgA", gupshup_api_key := "key"
      whatsapp_business_number := "5730000000" }
    { id := "chat1", contact_id := none, bot_enabled := false }
    { id := "chat1", contact_id := none, bot_enabled := true }
    "new1" none 0 [] (some "r") (.ok { success := true, messageId := none })
    (by decide) (by decide) (by decide) (by decide) (by decide) (by decide) (by decide)

theorem foldl_sweep (ttl t1 : Nat) (mid : String) (sweeps : List Nat) :
    ∀ st : GatewayState, st.processed = [(mid, t1)] →
      (∀ s ∈ sweeps, s - t1 ≤ ttl) →
      sweeps.foldl (fun st s => sweepDedup ttl s st) st
        = { st with processed := [(mid, t1)] } := by
  induction sweeps with
  | nil =>
      intro st hp _
      cases st
      simp only [List.foldl_nil]
      simp_all
  | cons s rest ih =>
      intro st hp hsw
      rw [List.foldl_cons]
      have hle : ¬ (ttl < s - t1) := by
        have := hsw s (List.mem_cons_self s rest)
        omega
      have hkeep : sweepDedup ttl s st = { st with processed := [(mid, t1)] } := by
        unfold sweepDedup
        rw [hp]
        simp [List.filter, hle]
      rw [hkeep]
      rw [ih { st with processed := [(mid, t1)] } rfl
        (fun x hx => hsw x (List.mem_cons_of_mem s hx))]

/-- Claim C3: submitting the same provider message id twice — with any number
of dedup sweeps in between whose times stay within the dedup TTL of the first
delivery — leaves the gateway state exactly as after the first delivery: the
second delivery is a no-op that does not pass the dedup gate, so exactly one
incoming row carrying that id is persisted and exactly one buffer append
occurs. -/
theorem dedup_second_delivery_noop
    (debounce maxBatch : Nat) (db : Db) (ev : InboundEvent) (mid : String)
    (conn : Connection) (ident : Identity)
    (t1 t2 : Nat) (sweeps : List Nat)
    (newId newId2 : String) (media media2 : Option MediaResult)
    (aiResult aiResult2 : Option String) (send send2 : Except String SendResult)
    (hev : ev.eventType = "message")
    (hmid : ev.messageId = some mid)
    (hc : db.connection ev.app = some conn)
    (hecho : ev.source ≠ conn.whatsapp_business_number)
    (hi : db.identity conn.organization_id ev.phone = some ident)
    (hb : ident.bot_enabled = true)
    (hmb : 1 < maxBatch)
    (hsw : ∀ s ∈ sweeps, s - t1 ≤ DEDUP_TTL) :
    handleEvent debounce maxBatch db
        (sweeps.foldl (fun st s => sweepDedup DEDUP_TTL s st)
          (handleEvent debounce maxBatch db emptyGatewayState ev t1 newId media aiResult send))
        ev t2 newId2 media2 aiResult2 send2
      = sweeps.foldl (fun st s => sweepDedup DEDUP_TTL s st)
          (handleEvent debounce maxBatch db emptyGatewayState ev t1 newId media aiResult send) ∧
    (handleEvent debounce maxBatch db
        (sweeps.foldl (fun st s => sweepDedup DEDUP_TTL s st)
          (handleEvent debounce maxBatch db emptyGatewayState ev t1 newId media aiResult send))
        ev t2 newId2 media2 aiResult2 send2).rows.map
        (fun r => (r.direction, r.platform_message_id)) = [("incoming", some mid)] ∧
    (handleEvent debounce maxBatch db
        (sweeps.foldl (fun st s => sweepDedup DEDUP_TTL s st)
          (handleEvent debounce maxBatch db emptyGatewayState ev t1 newId media aiResult send))
        ev t2 newId2 media2 aiResult2 send2).appendLog.length = 1 := by
  have hcap : ¬ (maxBatch ≤ 1) := by omega
  have hst1 : handleEvent debounce maxBatch db emptyGatewayState ev t1 newId media aiResult send
      = { processed := [(mid, t1)]
          rows := (processEventAsync debounce maxBatch db ev newId media t1 [] aiResult send).rows
          buffer := (processEventAsync debounce maxBatch db ev newId media t1 [] aiResult send).buffer
          appendLog := (processEventAsync debounce maxBatch db ev newId media t1 [] aiResult
            send).appendLog } := by
    simp [handleEvent, hev, hmid, seenRecently, emptyGatewayState]
  have hst2 : sweeps.foldl (fun st s => sweepDedup DEDUP_TTL s st)
      (handleEvent debounce maxBatch db emptyGatewayState ev t1 newId media aiResult send)
    = handleEvent debounce maxBatch db emptyGatewayState ev t1 newId media aiResult send := by
    rw [hst1]
    rw [foldl_sweep DEDUP_TTL t1 mid sweeps _ rfl hsw]
  have hrows : (processEventAsync debounce maxBatch db ev newId media t1 [] aiResult send).rows.map
      (fun r => (r.direction, r.platform_message_id)) = [("incoming", some mid)] := by
    simp [processEventAsync, hc, hecho, hi, hb, appendStep, hcap, hmid, emptyFlushEffects]
  have hlog : (processEventAsync debounce maxBatch db ev newId media t1 []
      aiResult send).appendLog.length = 1 := by
    simp [processEventAsync, hc, hecho, hi, hb]
  have hst3 : handleEvent debounce maxBatch db
      (sweeps.foldl (fun st s => sweepDedup DEDUP_TTL s st)
        (handleEvent debounce maxBatch db emptyGatewayState ev t1 newId media aiResult send))
      ev t2 newId2 media2 aiResult2 send2
    = sweeps.foldl (fun st s => sweepDedup DEDUP_TTL s st)
        (handleEvent debounce maxBatch db emptyGatewayState ev t1 newId media aiResult send) := by
    rw [hst2, hst1]
    simp [handleEvent, hev, hmid, seenRecently, List.lookup]
  refine ⟨hst3, ?_, ?_⟩
  · rw [hst3, hst2, hst1]
    exact hrows
  · rw [hst3, hst2, hst1]
    exact hlog

/-- Witness for C3: the concrete event delivered at t=0 and re-delivered at
t=100000 (100 s later), with a dedup sweep at t=60000 in between, yields an
unchanged state on the second delivery, one incoming row for `msg1` and one
buffer append. -/
theorem dedup_second_delivery_witness :
    handleEvent 10000 5 witnessDbOn
        ([60000].foldl (fun st s => sweepDedup DEDUP_TTL s st)
          (handleEvent 10000 5 witnessDbOn emptyGatewayState witnessEvent 0 "new1" none
            (some "r") (.ok { success := true, messageId := none })))
        witnessEvent 100000 "new2" none (some "r2") (.ok { success := true, messageId := none })
      = [60000].foldl (fun st s => sweepDedup DEDUP_TTL s st)
          (handleEvent 10000 5 witnessDbOn emptyGatewayState witnessEvent 0 "new1" none
            (some "r") (.ok { success := true, messageId := none })) ∧
    (handleEvent 10000 5 witnessDbOn
        ([60000].foldl (fun st s => sweepDedup DEDUP_TTL s st)
          (handleEvent 10000 5 witnessDbOn emptyGatewayState witnessEvent 0 "new1" none
            (some "r") (.ok { success := true, messageId := none })))
        witnessEvent 100000 "new2" none (some "r2")
        (.ok { success := true, messageId := none })).rows.map
        (fun r => (r.direction, r.platform_message_id)) = [("incoming", some "msg1")] ∧
    (handleEvent 10000 5 witnessDbOn
        ([60000].foldl (fun st s => sweepDedup DEDUP_TTL s st)
          (handleEvent 10000 5 witnessDbOn emptyGatewayState witnessEvent 0 "new1" none
            (some "r") (.ok { success := true, messageId := none })))
        witnessEvent 100000 "new2" none (some "r2")
        (.ok { success := true, messageId := none })).appendLog.length = 1 :=
  dedup_second_delivery_noop 10000 5 witnessDbOn witnessEvent "msg1"
    { organization_id := "orgA", gupshup_api_key := "key"
      whatsapp_business_number := "5730000000" }
    { id := "chat1", contact_id := none, bot_enabled := true }
    0 100000 [60000] "new1" "new2" none none (some "r") (some "r2")
    (.ok { success := true, messageId := none }) (.ok { success := true, messageId := none })
    (by decide) (by decide) (by decide) (by decide) (by decide) (by decide) (by decide)
    (by decide)

end SkytideGateway
